import Mathlib

/-!
# A shallow embedding of the LODP packet-processing core (`lodp_pkt.c`)

Bytes are modelled as natural numbers below 256 collected in `List Nat`.
The crypto primitives (`lodp_mac`, `lodp_encrypt`, `lodp_decrypt`,
`lodp_ecdh`, `lodp_derive_sessionkeys`, ...) live in `lodp_crypto.c`,
which is not part of the sources under verification; they are modelled
from the spec as concrete executable functions with the interface and
algebraic properties the spec ascribes to them.  Everything else is a
direct translation of `src/lodp_pkt.c`.
-/

set_option maxRecDepth 65536

abbrev Bytes := List Nat

/-! ## Primitive constants (from `lodp_crypto.h` / `lodp.h`, fixed here) -/

def LODP_MAC_DIGEST_LEN : Nat := 32
def LODP_MAC_KEY_LEN : Nat := 32
def LODP_BULK_KEY_LEN : Nat := 32
def LODP_BULK_IV_LEN : Nat := 16
def LODP_ECDH_PUBLIC_KEY_LEN : Nat := 32
def LODP_ECDH_SECRET_LEN : Nat := 32
def LODP_MSS : Nat := 1280

/-! Packet size constants from `lodp_pkt.h`. -/

def PKT_TAG_LEN : Nat := LODP_MAC_DIGEST_LEN + LODP_BULK_IV_LEN
def PKT_TLV_LEN : Nat := 4
def PKT_HDR_LEN : Nat := PKT_TAG_LEN + PKT_TLV_LEN
def PKT_DATA_LEN : Nat := PKT_HDR_LEN
def PKT_HDR_DATA_LEN : Nat := PKT_TLV_LEN
def PKT_INIT_LEN : Nat := PKT_HDR_LEN + LODP_MAC_KEY_LEN + LODP_BULK_KEY_LEN
def PKT_HDR_INIT_LEN : Nat := PKT_INIT_LEN - PKT_TAG_LEN
def PKT_INIT_ACK_LEN : Nat := PKT_HDR_LEN
def PKT_HDR_INIT_ACK_LEN : Nat := PKT_TLV_LEN
def PKT_HANDSHAKE_LEN : Nat :=
  PKT_HDR_LEN + LODP_MAC_KEY_LEN + LODP_BULK_KEY_LEN + LODP_ECDH_PUBLIC_KEY_LEN
def PKT_HDR_HANDSHAKE_LEN : Nat := PKT_HANDSHAKE_LEN - PKT_TAG_LEN
def PKT_HANDSHAKE_ACK_LEN : Nat :=
  PKT_HDR_LEN + LODP_ECDH_PUBLIC_KEY_LEN + LODP_MAC_DIGEST_LEN
def PKT_HDR_HANDSHAKE_ACK_LEN : Nat := PKT_HANDSHAKE_ACK_LEN - PKT_TAG_LEN
def PKT_HEARTBEAT_LEN : Nat := PKT_HDR_LEN
def PKT_HDR_HEARTBEAT_LEN : Nat := PKT_TLV_LEN
def PKT_HEARTBEAT_ACK_LEN : Nat := PKT_HDR_LEN
def PKT_HDR_HEARTBEAT_ACK_LEN : Nat := PKT_TLV_LEN

/-! Packet type codes (`lodp_pkt_type`). -/

def PKT_DATA : Nat := 0
def PKT_INIT : Nat := 1
def PKT_INIT_ACK : Nat := 2
def PKT_HANDSHAKE : Nat := 3
def PKT_HANDSHAKE_ACK : Nat := 4
def PKT_HEARTBEAT : Nat := 5
def PKT_HEARTBEAT_ACK : Nat := 6
def PKT_REKEY : Nat := 7
def PKT_REKEY_ACK : Nat := 8

/-! Cookie constants from `lodp_pkt.c`. -/

def COOKIE_LEN : Nat := LODP_MAC_DIGEST_LEN
def COOKIE_ROTATE_INTERVAL : Nat := 30
def COOKIE_GRACE_WINDOW : Nat := 15

/-! Error codes (`lodp.h` is not under the verified sources; the exact
numeric values are irrelevant, only their distinctness matters). -/

def LODP_ERR_INVALID_MAC : Int := -101
def LODP_ERR_BAD_PACKET : Int := -102
def LODP_ERR_INVALID_COOKIE : Int := -103
def LODP_ERR_BAD_HANDSHAKE : Int := -104
def LODP_ERR_NOT_RESPONDER : Int := -105
def LODP_ERR_NOBUFS : Int := -106
def LODP_ERR_MSGSIZE : Int := -107
def LODP_ERR_AFNOTSUPPORT : Int := -108

/-! Session state codes (`lodp_impl.h`; exact values irrelevant). -/

def STATE_INIT : Nat := 1
def STATE_HANDSHAKE : Nat := 2
def STATE_ESTABLISHED : Nat := 3
def STATE_ERROR : Nat := 4

/-! ## Modelled crypto primitives -/

/-- A byte-mixing step used to give the modelled MAC and keystream
concrete, executable definitions. -/
def mixByte (h x : Nat) : Nat := (h * 31 + x + 7) % 256

/-- Modelled from the spec: `mac(out, msg, key, out_len, msg_len)` — a
deterministic keyed MAC producing `outLen` bytes from `key` and `msg`
(`lodp_crypto.c` is not under the verified sources). -/
def lodp_mac (key msg : Bytes) (outLen : Nat) : Bytes :=
  (List.range outLen).map (fun i => (msg ++ key).foldl mixByte ((i + 1) % 256))

/-- Modelled from the spec: `memcmp_ct(a, b, n)` — constant-time equality,
returning 0 exactly when the byte strings agree. -/
def lodp_memcmp (a b : Bytes) : Nat :=
  if a = b then 0 else 1

/-- Modelled from the spec: `memwipe(p, n)` — zeroes the first `n` bytes of
a buffer (clamped to the buffer's extent). -/
def lodp_memwipe (b : Bytes) (n : Nat) : Bytes :=
  List.replicate (min n b.length) 0 ++ b.drop n

/-- Modelled from the spec: the bulk stream cipher's keystream for a given
key and IV. -/
def lodp_keystream (key iv : Bytes) (n : Nat) : Bytes :=
  (List.range n).map (fun i => (key ++ iv).foldl mixByte (i % 256))

/-- Modelled from the spec: `encrypt(out, key, iv, in, len)` — a stream
cipher over the body (XOR with the keystream). -/
def lodp_encrypt (key iv data : Bytes) : Bytes :=
  List.zipWith (fun a b => a ^^^ b) data (lodp_keystream key iv data.length)

/-- Modelled from the spec: `decrypt(out, key, iv, in, len)` — the inverse
direction of the stream cipher (identical XOR with the keystream). -/
def lodp_decrypt (key iv data : Bytes) : Bytes :=
  List.zipWith (fun a b => a ^^^ b) data (lodp_keystream key iv data.length)

@[simp] theorem lodp_mac_length (key msg : Bytes) (n : Nat) :
    (lodp_mac key msg n).length = n := by
  simp [lodp_mac]

@[simp] theorem lodp_keystream_length (key iv : Bytes) (n : Nat) :
    (lodp_keystream key iv n).length = n := by
  simp [lodp_keystream]

theorem zipWith_xor_cancel (ks : Bytes) :
    ∀ l : Bytes, l.length = ks.length →
      List.zipWith (fun a b => a ^^^ b)
        (List.zipWith (fun a b => a ^^^ b) l ks) ks = l := by
  induction ks with
  | nil =>
      intro l hl
      simp [List.length_eq_zero.mp hl]
  | cons k ks ih =>
      intro l hl
      cases l with
      | nil => simp at hl
      | cons a l =>
          simp only [List.zipWith_cons_cons, List.cons.injEq]
          constructor
          · rw [Nat.xor_assoc, Nat.xor_self, Nat.xor_zero]
          · exact ih l (by simpa using hl)

@[simp] theorem lodp_encrypt_length (key iv data : Bytes) :
    (lodp_encrypt key iv data).length = data.length := by
  simp [lodp_encrypt]

theorem lodp_decrypt_encrypt (key iv data : Bytes) :
    lodp_decrypt key iv (lodp_encrypt key iv data) = data := by
  unfold lodp_decrypt lodp_encrypt
  have h1 : (List.zipWith (fun a b => a ^^^ b) data
      (lodp_keystream key iv data.length)).length = data.length := by simp
  rw [h1]
  exact zipWith_xor_cancel _ data (by simp)

/-! ## Symmetric keys, buffers, and primitive status injection -/

/-- `lodp_symmetric_key`: a MAC key plus a bulk-cipher key. -/
structure lodp_symmetric_key where
  mac_key : Bytes
  bulk_key : Bytes
deriving DecidableEq, Repr

/-- `lodp_buf`: plaintext and ciphertext views of one datagram plus the
current length. -/
structure lodp_buf where
  plaintext : Bytes
  ciphertext : Bytes
  len : Nat
deriving DecidableEq, Repr

/-- Modelled from the spec: the integer status results the crypto
primitives may return (the C propagates `ret` from `lodp_mac`,
`lodp_encrypt` and `lodp_decrypt`; a failing primitive is modelled by a
status oracle, 0 meaning success). -/
structure CryptoStatus where
  mac_ret : Bytes → Bytes → Int
  encrypt_ret : Bytes → Bytes → Int
  decrypt_ret : Bytes → Bytes → Int

/-- The oracle for primitives that always succeed. -/
def honestCrypto : CryptoStatus :=
  { mac_ret := fun _ _ => 0, encrypt_ret := fun _ _ => 0,
    decrypt_ret := fun _ _ => 0 }

/-! ## The AEAD envelope (`encrypt_then_mac` / `mac_then_decrypt`) -/

/-- The optional padding step at the top of `encrypt_then_mac`: the host's
`pre_encrypt_fn` callback may request padding, clamped so the buffer never
exceeds the MSS; padding bytes are random (modelled as the stream
`padRand`). -/
def apply_padding (pre_encrypt_fn : Option (Nat → Nat → Int))
    (padRand : Nat → Nat) (buf : lodp_buf) : lodp_buf :=
  match pre_encrypt_fn with
  | none => buf
  | some f =>
      let r := f buf.len LODP_MSS
      if 0 < r then
        let n := if r.toNat + buf.len > LODP_MSS then LODP_MSS - buf.len
                 else r.toNat
        { buf with plaintext := buf.plaintext ++ (List.range n).map padRand,
                   len := buf.len + n }
      else buf

/-- Steps (2)-(4) of `encrypt_then_mac`: fresh random IV, encrypt the body
after the tag region into the ciphertext view, MAC over (IV ‖ ciphertext
body) written into the leading MAC field. -/
def encrypt_then_mac_core (cs : CryptoStatus) (iv : Bytes)
    (keys : lodp_symmetric_key) (buf : lodp_buf) : Int × lodp_buf :=
  let body := (buf.plaintext.drop PKT_TAG_LEN).take (buf.len - PKT_TAG_LEN)
  let ct_body := lodp_encrypt keys.bulk_key iv body
  let eret := cs.encrypt_ret keys.bulk_key body
  if eret ≠ 0 then (eret, buf)
  else
    let mac := lodp_mac keys.mac_key (iv ++ ct_body) LODP_MAC_DIGEST_LEN
    let mret := cs.mac_ret keys.mac_key (iv ++ ct_body)
    (mret, { buf with ciphertext := mac ++ iv ++ ct_body })

/-- `encrypt_then_mac` from `lodp_pkt.c`: optional padding, then the
encrypt-and-MAC core. -/
def encrypt_then_mac (cs : CryptoStatus)
    (pre_encrypt_fn : Option (Nat → Nat → Int)) (padRand : Nat → Nat)
    (iv : Bytes) (keys : lodp_symmetric_key) (buf : lodp_buf) :
    Int × lodp_buf :=
  encrypt_then_mac_core cs iv keys (apply_padding pre_encrypt_fn padRand buf)

/-- `mac_then_decrypt` from `lodp_pkt.c`: recompute the MAC over the bytes
starting at the IV, compare in constant time against the received tag,
and only then decrypt the body into the plaintext view. -/
def mac_then_decrypt (cs : CryptoStatus) (keys : lodp_symmetric_key)
    (buf : lodp_buf) : Int × lodp_buf :=
  let ct := buf.ciphertext.take buf.len
  let tag := ct.take LODP_MAC_DIGEST_LEN
  let rest := ct.drop LODP_MAC_DIGEST_LEN
  let digest := lodp_mac keys.mac_key rest LODP_MAC_DIGEST_LEN
  let mret := cs.mac_ret keys.mac_key rest
  if mret ≠ 0 then (mret, buf)
  else if lodp_memcmp digest tag ≠ 0 then (LODP_ERR_INVALID_MAC, buf)
  else
    let iv := rest.take LODP_BULK_IV_LEN
    let ct_body := rest.drop LODP_BULK_IV_LEN
    let body := lodp_decrypt keys.bulk_key iv ct_body
    let dret := cs.decrypt_ret keys.bulk_key ct_body
    (dret, { buf with plaintext := buf.plaintext.take PKT_TAG_LEN ++ body })

/-! ## Endpoint, addresses, raw packets -/

/-- `lodp_endpoint`: the per-listener state the packet core touches. -/
structure lodp_endpoint where
  has_intro_keys : Bool
  intro_sym_keys : lodp_symmetric_key
  intro_ecdh_pub : Nat
  intro_ecdh_priv : Nat
  cookie_key : Bytes
  prev_cookie_key : Bytes
  cookie_rotate_time : Nat
  cookie_expire_time : Nat
deriving DecidableEq, Repr

/-- Peer socket addresses: 4-byte or 16-byte address plus a 2-byte port in
network byte order, or an unsupported family. -/
inductive SockAddr
  | v4 (ip port : Bytes)
  | v6 (ip port : Bytes)
  | other
deriving DecidableEq, Repr

/-- The common Type/Flags/Length header (after byte-order fixup). -/
structure lodp_hdr where
  type : Nat
  flags : Nat
  length : Nat
deriving DecidableEq, Repr

/-- `lodp_pkt_raw`: header plus opaque payload bytes. -/
structure lodp_pkt_raw where
  hdr : lodp_hdr
  payload : Bytes
deriving DecidableEq, Repr

/-! ## Cookie subsystem -/

/-- `lodp_rotate_cookie_key`: move the current key to `prev_cookie_key`,
install a fresh random key (modelled as the argument `fresh_key`), and
reset the rotation/expiry clocks. -/
def lodp_rotate_cookie_key (now : Nat) (fresh_key : Bytes)
    (ep : lodp_endpoint) : lodp_endpoint :=
  { ep with prev_cookie_key := ep.cookie_key, cookie_key := fresh_key,
            cookie_rotate_time := now,
            cookie_expire_time := now + COOKIE_GRACE_WINDOW }

/-- The address part of the cookie blob: IP bytes then port bytes, or
`none` for an unsupported address family. -/
def sockaddr_blob : SockAddr → Option Bytes
  | .v4 ip port => some (ip.take 4 ++ port.take 2)
  | .v6 ip port => some (ip.take 16 ++ port.take 2)
  | .other => none

/-- `sizeof(lodp_cookie *)`: the byte count the source hands to
`lodp_memwipe` at the end of `generate_cookie` is `sizeof(cookie)` where
`cookie` is the pointer parameter — 8 bytes on the LP64 targets the code
is built for, not `COOKIE_LEN`. -/
def SIZEOF_COOKIE_PTR : Nat := 8

/-- `sizeof(size_t)`: the byte count `scrub_handshake_material` hands to
`lodp_memwipe` for the cookie buffer is `sizeof(session->cookie_len)` —
8 bytes on LP64 — not `session->cookie_len`. -/
def SIZEOF_SIZE_T : Nat := 8

/-- `generate_cookie` from `lodp_pkt.c`.  Rotates the cookie key when the
rotation interval has elapsed, rejects callers other than INIT/HANDSHAKE,
builds the blob (peer address ‖ port ‖ peer intro keys) and MACs it.  Two
faithful quirks of the source: the `prev_key` parameter is never read (the
digest is always keyed with `ep.cookie_key`), and the first
`SIZEOF_COOKIE_PTR` bytes of the produced digest are wiped just before
returning. -/
def generate_cookie (prev_key : Nat) (ep : lodp_endpoint) (now : Nat)
    (fresh_key : Bytes) (pkt : lodp_pkt_raw) (addr : SockAddr) :
    Except Int (lodp_endpoint × Bytes) :=
  let ep := if now > ep.cookie_rotate_time + COOKIE_ROTATE_INTERVAL
            then lodp_rotate_cookie_key now fresh_key ep else ep
  if pkt.hdr.type ≠ PKT_INIT ∧ pkt.hdr.type ≠ PKT_HANDSHAKE then
    .error LODP_ERR_BAD_PACKET
  else
    match sockaddr_blob addr with
    | none => .error LODP_ERR_AFNOTSUPPORT
    | some ab =>
        if pkt.hdr.length < 4 + LODP_MAC_KEY_LEN + LODP_BULK_KEY_LEN then
          .error LODP_ERR_BAD_PACKET
        else
          let blob := ab ++ pkt.payload.take (LODP_MAC_KEY_LEN + LODP_BULK_KEY_LEN)
          let digest := lodp_mac ep.cookie_key blob COOKIE_LEN
          .ok (ep, lodp_memwipe digest SIZEOF_COOKIE_PTR)

/-! ## ECDH and the modified ntor handshake -/

/-- Modelled from the spec: the ECDH group, as exponentiation of a fixed
generator modulo a fixed prime, which supplies the shared-secret law
`EXP(EXP(g,a),b) = EXP(EXP(g,b),a)` the real curve provides. -/
def ECDH_P : Nat := 251

/-- Modelled from the spec: the group generator. -/
def ECDH_G : Nat := 6

/-- Modelled from the spec: `ecdh(out_secret, priv, pub)` — scalar
multiply. -/
def lodp_ecdh (priv pub : Nat) : Nat := pub ^ priv % ECDH_P

/-- Modelled from the spec: derive the public key of a private scalar. -/
def lodp_ecdh_pubkey (priv : Nat) : Nat := ECDH_G ^ priv % ECDH_P

/-- Modelled from the spec: `ecdh_validate_pubkey` — small-order/identity
rejection; nonzero means invalid, as in the C. -/
def lodp_ecdh_validate_pubkey (pub : Nat) : Nat :=
  if pub % ECDH_P ≤ 1 then 1 else 0

/-- Little-endian serialization of a modelled group element into the fixed
number of wire bytes. -/
def natBytes (n len : Nat) : Bytes :=
  (List.range len).map (fun i => n / 256 ^ i % 256)

/-- `"lodp-ntor-1"`. -/
def PROTOID : Bytes := [108, 111, 100, 112, 45, 110, 116, 111, 114, 45, 49]

/-- `"Responder"`. -/
def RESPONDER : Bytes := [82, 101, 115, 112, 111, 110, 100, 101, 114]

/-- NUL-pad a literal key to `LODP_MAC_KEY_LEN`, as the C static
initializers do. -/
def padMacKey (b : Bytes) : Bytes :=
  b ++ List.replicate (LODP_MAC_KEY_LEN - b.length) 0

/-- `"lodp-ntor-1:key_extract"` with trailing NUL. -/
def ss_key : Bytes :=
  padMacKey (PROTOID ++ [58, 107, 101, 121, 95, 101, 120, 116, 114, 97, 99, 116, 0])

/-- `"lodp-ntor-1:key_expand"` with trailing NUL. -/
def verify_key : Bytes :=
  padMacKey (PROTOID ++ [58, 107, 101, 121, 95, 101, 120, 112, 97, 110, 100, 0])

/-- `"lodp-ntor-1:mac"` with trailing NUL. -/
def auth_key : Bytes :=
  padMacKey (PROTOID ++ [58, 109, 97, 99, 0])

/-- Modelled from the spec: `derive_session_keys(shared_secret) →
(key_a, key_b)` — expand the shared secret into two symmetric key
pairs. -/
def lodp_derive_sessionkeys (secret : Bytes) :
    lodp_symmetric_key × lodp_symmetric_key :=
  (⟨lodp_mac [1] secret LODP_MAC_KEY_LEN, lodp_mac [2] secret LODP_BULK_KEY_LEN⟩,
   ⟨lodp_mac [3] secret LODP_MAC_KEY_LEN, lodp_mac [4] secret LODP_BULK_KEY_LEN⟩)

/-- `lodp_session`: the per-peer TCB fields the packet core touches.  ECDH
keys are modelled group elements (`Nat`); byte-level secrets are byte
lists. -/
structure lodp_session where
  is_initiator : Bool
  state : Nat
  seen_peer_data : Bool
  session_ecdh_pub : Nat
  session_ecdh_priv : Nat
  remote_public_key : Nat
  session_secret : Bytes
  session_secret_verifier : Bytes
  tx_key : lodp_symmetric_key
  rx_key : lodp_symmetric_key
  cookie : Option Bytes
  cookie_len : Nat
deriving DecidableEq, Repr

/-- The role-independent tail of `ntor_handshake`: build `SecretInput`,
derive the shared secret and verifier, store them, and install the traffic
keys with the initiator/responder asymmetry of the source
(`lodp_derive_sessionkeys(&tx, &rx, ...)` for the initiator,
`lodp_derive_sessionkeys(&rx, &tx, ...)` for the responder). -/
def ntor_finish (session : lodp_session) (initiator : Bool)
    (B X Y s1 s2 : Nat) : lodp_session :=
  let secret_input :=
    natBytes s1 LODP_ECDH_SECRET_LEN ++ natBytes s2 LODP_ECDH_SECRET_LEN ++
    natBytes B LODP_ECDH_PUBLIC_KEY_LEN ++ natBytes X LODP_ECDH_PUBLIC_KEY_LEN ++
    natBytes Y LODP_ECDH_PUBLIC_KEY_LEN ++ PROTOID
  let secret := lodp_mac ss_key secret_input LODP_ECDH_SECRET_LEN
  let verify := lodp_mac verify_key secret_input LODP_MAC_DIGEST_LEN
  let auth_input :=
    verify ++ natBytes B LODP_ECDH_PUBLIC_KEY_LEN ++
    natBytes X LODP_ECDH_PUBLIC_KEY_LEN ++ natBytes Y LODP_ECDH_PUBLIC_KEY_LEN ++
    PROTOID ++ RESPONDER
  let verifier := lodp_mac auth_key auth_input LODP_MAC_DIGEST_LEN
  let keys := lodp_derive_sessionkeys secret
  let session := { session with session_secret := secret,
                                session_secret_verifier := verifier }
  if initiator then { session with tx_key := keys.1, rx_key := keys.2 }
  else { session with rx_key := keys.1, tx_key := keys.2 }

/-- `ntor_handshake` from `lodp_pkt.c`: the initiator computes
`s1 = EXP(Y,x)`, `s2 = EXP(B,x)` and validates `Y` and `B`; the responder
computes `s1 = EXP(X,y)`, `s2 = EXP(X,b)` and validates `X`; both then run
the common tail. -/
def ntor_handshake (ep : lodp_endpoint) (session : lodp_session)
    (pub_key : Nat) : Except Int lodp_session :=
  if session.is_initiator then
    let X := session.session_ecdh_pub
    let x := session.session_ecdh_priv
    let Y := pub_key
    let B := session.remote_public_key
    let s1 := lodp_ecdh x Y
    if lodp_ecdh_validate_pubkey Y ≠ 0 then .error LODP_ERR_BAD_HANDSHAKE
    else
      let s2 := lodp_ecdh x B
      if lodp_ecdh_validate_pubkey B ≠ 0 then .error LODP_ERR_BAD_HANDSHAKE
      else .ok (ntor_finish session true B X Y s1 s2)
  else
    let X := pub_key
    let Y := session.session_ecdh_pub
    let y := session.session_ecdh_priv
    let B := ep.intro_ecdh_pub
    let b := ep.intro_ecdh_priv
    let s1 := lodp_ecdh y X
    if lodp_ecdh_validate_pubkey X ≠ 0 then .error LODP_ERR_BAD_HANDSHAKE
    else
      let s2 := lodp_ecdh b X
      .ok (ntor_finish session false B X Y s1 s2)

/-! ## Scrubbing and the DATA handler -/

/-- Result of `scrub_handshake_material`: the scrubbed session, plus the
contents of the cookie buffer at the moment `free()` runs (so the wipe
discipline on the freed memory is observable). -/
structure scrub_result where
  session : lodp_session
  freed_cookie : Option Bytes
deriving DecidableEq, Repr

/-- `scrub_handshake_material` from `lodp_pkt.c`.  Faithful quirk: the
cookie wipe is `lodp_memwipe(session->cookie, sizeof(session->cookie_len))`
— it zeroes `SIZEOF_SIZE_T` bytes, not `cookie_len` bytes.  The ephemeral
keypair, the cached shared secret and the verifier are wiped in full. -/
def scrub_handshake_material (s : lodp_session) : scrub_result :=
  { session := { s with
      cookie := none,
      session_ecdh_pub := 0, session_ecdh_priv := 0,
      session_secret := List.replicate s.session_secret.length 0,
      session_secret_verifier :=
        List.replicate s.session_secret_verifier.length 0 },
    freed_cookie := s.cookie.map (fun c => lodp_memwipe c SIZEOF_SIZE_T) }

/-- `on_data_pkt` from `lodp_pkt.c`.  `on_recv_fn` is the host callback;
the third component of the result is the freed cookie buffer's contents
when a scrub happened (`none` otherwise). -/
def on_data_pkt (on_recv_fn : Bytes → Int) (session : lodp_session)
    (hdr_length : Nat) (data : Bytes) : Int × lodp_session × Option Bytes :=
  if session.state ≠ STATE_ESTABLISHED then (LODP_ERR_BAD_PACKET, session, none)
  else
    let step :=
      if ¬session.seen_peer_data then
        let session := { session with seen_peer_data := true }
        if ¬session.is_initiator then
          let r := scrub_handshake_material session
          (r.session, r.freed_cookie)
        else (session, none)
      else (session, none)
    (on_recv_fn (data.take (hdr_length - PKT_HDR_DATA_LEN)), step.1, step.2)

/-! ## The HANDSHAKE handler -/

/-- The decoded HANDSHAKE packet.  The ECDH public key is a modelled group
element; `raw_of_handshake` lays the payload out in wire order for cookie
generation. -/
structure lodp_pkt_handshake where
  hdr : lodp_hdr
  intro_mac_key : Bytes
  intro_bulk_key : Bytes
  public_key : Nat
  cookie : Bytes
deriving DecidableEq, Repr

/-- The HANDSHAKE payload in wire order (intro MAC key, intro bulk key,
public key, cookie echo), as `generate_cookie` sees it. -/
def raw_of_handshake (p : lodp_pkt_handshake) : lodp_pkt_raw :=
  { hdr := p.hdr,
    payload := p.intro_mac_key ++ p.intro_bulk_key ++
      natBytes p.public_key LODP_ECDH_PUBLIC_KEY_LEN ++ p.cookie }

/-- Modelled from the spec: `lodp_session_init` (in `lodp.c`, not under the
verified sources) allocates a responder TCB, already in the ESTABLISHED
state, holding a fresh ephemeral ECDH keypair (modelled as the private
scalar `new_priv`). -/
def lodp_session_init (new_priv : Nat) : lodp_session :=
  { is_initiator := false, state := STATE_ESTABLISHED, seen_peer_data := false,
    session_ecdh_pub := lodp_ecdh_pubkey new_priv,
    session_ecdh_priv := new_priv, remote_public_key := 0,
    session_secret := [], session_secret_verifier := [],
    tx_key := ⟨[], []⟩, rx_key := ⟨[], []⟩, cookie := none, cookie_len := 0 }

/-- Outcome of a successful `on_handshake_pkt`: the ntor material written
into the HANDSHAKE_ACK, whether ntor ran, whether the `on_accept` callback
was invoked, and the resulting session/endpoint. -/
structure hs_result where
  ack_public_key : Bytes
  ack_digest : Bytes
  ran_ntor : Bool
  on_accept_called : Bool
  created_session : Bool
  session : lodp_session
  ep : lodp_endpoint
deriving DecidableEq, Repr

/-- `on_handshake_pkt` from `lodp_pkt.c`: length check, cookie validation
with the grace-window retry, then either the lost-ACK retransmission path
(existing session, `seen_peer_data == 0`: rebuild the ACK from the cached
ephemeral public key and verifier without rerunning ntor), the rejection
path (`seen_peer_data == 1`), or TCB creation plus ntor.  Faithful quirk:
the C initializes `int should_callback = 1;` and never clears it, so the
`on_accept` callback fires on every transmitted ACK, retransmissions
included. -/
def on_handshake_pkt (ep : lodp_endpoint) (session0 : Option lodp_session)
    (hs_pkt : lodp_pkt_handshake) (addr : SockAddr) (now : Nat)
    (fresh_cookie_key : Bytes) (new_priv : Nat) : Except Int hs_result :=
  let should_callback := true
  if hs_pkt.hdr.length ≠ PKT_HDR_HANDSHAKE_LEN + COOKIE_LEN then
    .error LODP_ERR_BAD_PACKET
  else
    let raw := raw_of_handshake hs_pkt
    let after_cookie : lodp_endpoint → Except Int hs_result := fun ep2 =>
      let do_xmit : lodp_session → Bool → Bool → Except Int hs_result :=
        fun session ran created =>
          .ok { ack_public_key :=
                  natBytes session.session_ecdh_pub LODP_ECDH_PUBLIC_KEY_LEN,
                ack_digest := session.session_secret_verifier,
                ran_ntor := ran, on_accept_called := should_callback,
                created_session := created, session := session, ep := ep2 }
      match session0 with
      | some session =>
          if session.seen_peer_data then .error LODP_ERR_BAD_PACKET
          else do_xmit session false false
      | none =>
          let session := lodp_session_init new_priv
          match ntor_handshake ep2 session hs_pkt.public_key with
          | .error e => .error e
          | .ok session => do_xmit session true true
    match generate_cookie 0 ep now fresh_cookie_key raw addr with
    | .error e => .error e
    | .ok (ep1, cookie) =>
        if lodp_memcmp (cookie.take COOKIE_LEN) (hs_pkt.cookie.take COOKIE_LEN) ≠ 0 then
          if now > ep1.cookie_expire_time then .error LODP_ERR_INVALID_COOKIE
          else
            match generate_cookie 1 ep1 now fresh_cookie_key raw addr with
            | .error e => .error e
            | .ok (ep2, cookie2) =>
                if lodp_memcmp (cookie2.take COOKIE_LEN)
                    (hs_pkt.cookie.take COOKIE_LEN) ≠ 0 then
                  .error LODP_ERR_INVALID_COOKIE
                else after_cookie ep2
        else after_cookie ep1

/-! ## The ingress dispatcher -/

/-- Which packet-type handler `lodp_on_incoming_pkt` hands a valid packet
to. -/
inductive dispatch_target
  | data | init | init_ack | handshake | handshake_ack | heartbeat
  | heartbeat_ack
deriving DecidableEq, Repr

/-- A packet accepted by the dispatcher: the chosen handler, which keys
decrypted it, the host-order header fields, and the decrypted buffer. -/
structure dispatch_ok where
  target : dispatch_target
  used_session_keys : Bool
  hdr_type : Nat
  hdr_length : Nat
  buf : lodp_buf
deriving DecidableEq, Repr

/-- The `type` byte of the decrypted header. -/
def hdr_type_of (buf : lodp_buf) : Nat := buf.plaintext.getD PKT_TAG_LEN 0

/-- The `flags` byte of the decrypted header. -/
def hdr_flags_of (buf : lodp_buf) : Nat :=
  buf.plaintext.getD (PKT_TAG_LEN + 1) 0

/-- `ntohs(hdr->length)`: the two wire bytes of the length field combined
in network (big-endian) order into the host-order value. -/
def hdr_length_of (buf : lodp_buf) : Nat :=
  256 * buf.plaintext.getD (PKT_TAG_LEN + 2) 0 +
    buf.plaintext.getD (PKT_TAG_LEN + 3) 0

/-- The packet-type-agnostic checks and the dispatch switch of
`lodp_on_incoming_pkt`, applied once MAC validation and decryption have
succeeded: fix `length` up to host byte order, reject undersized or
oversized lengths and nonzero flags, then dispatch on the type byte
according to which keys authenticated the packet. -/
def incoming_after_decrypt (session0 : Option lodp_session)
    (used_session_keys : Bool) (buf : lodp_buf) : Except Int dispatch_ok :=
  let ty := hdr_type_of buf
  let flags := hdr_flags_of buf
  let length := hdr_length_of buf
  if length < PKT_TLV_LEN then .error LODP_ERR_BAD_PACKET
  else if length > buf.len - PKT_TAG_LEN then .error LODP_ERR_BAD_PACKET
  else if flags ≠ 0 then .error LODP_ERR_BAD_PACKET
  else
    match session0 with
    | some session =>
        if ¬used_session_keys then
          if ty ≠ PKT_HANDSHAKE then .error LODP_ERR_BAD_PACKET
          else if session.is_initiator then .error LODP_ERR_NOT_RESPONDER
          else .ok ⟨.handshake, false, ty, length, buf⟩
        else if ty = PKT_DATA then .ok ⟨.data, true, ty, length, buf⟩
        else if ty = PKT_INIT_ACK then .ok ⟨.init_ack, true, ty, length, buf⟩
        else if ty = PKT_HANDSHAKE_ACK then
          .ok ⟨.handshake_ack, true, ty, length, buf⟩
        else if ty = PKT_HEARTBEAT then .ok ⟨.heartbeat, true, ty, length, buf⟩
        else if ty = PKT_HEARTBEAT_ACK then
          .ok ⟨.heartbeat_ack, true, ty, length, buf⟩
        else .error LODP_ERR_BAD_PACKET
    | none =>
        if ty = PKT_INIT then .ok ⟨.init, false, ty, length, buf⟩
        else if ty = PKT_HANDSHAKE then .ok ⟨.handshake, false, ty, length, buf⟩
        else .error LODP_ERR_BAD_PACKET

/-- The endpoint-intro-key attempt of `lodp_on_incoming_pkt`: an endpoint
without intro keys cannot decrypt, otherwise try the intro symmetric keys
and return any failure as is. -/
def incoming_intro_phase (cs : CryptoStatus) (ep : lodp_endpoint)
    (session0 : Option lodp_session) (buf : lodp_buf) :
    Except Int dispatch_ok :=
  if ¬ep.has_intro_keys then .error LODP_ERR_NOT_RESPONDER
  else
    let r := mac_then_decrypt cs ep.intro_sym_keys buf
    if r.1 ≠ 0 then .error r.1
    else incoming_after_decrypt session0 false r.2

/-- `lodp_on_incoming_pkt` from `lodp_pkt.c`: with a session, try its
`rx_key` first; fall back to the endpoint intro keys only on
`LODP_ERR_INVALID_MAC` (any other failure is final); without a session go
straight to the intro keys. -/
def lodp_on_incoming_pkt (cs : CryptoStatus) (ep : lodp_endpoint)
    (session0 : Option lodp_session) (buf : lodp_buf) :
    Except Int dispatch_ok :=
  match session0 with
  | some session =>
      let r := mac_then_decrypt cs session.rx_key buf
      if r.1 = 0 then incoming_after_decrypt session0 true r.2
      else if r.1 ≠ LODP_ERR_INVALID_MAC then .error r.1
      else incoming_intro_phase cs ep session0 buf
  | none => incoming_intro_phase cs ep session0 buf

/-! ## Egress builders -/

/-- The zeroed MAC/IV region at the head of a freshly built plaintext
packet. -/
def build_tag_region : Bytes := List.replicate PKT_TAG_LEN 0

/-- `htons` on a 16-bit length: two bytes, network order. -/
def htons16 (n : Nat) : Bytes := [n / 256 % 256, n % 256]

/-- `lodp_send_data_pkt` from `lodp_pkt.c`.  `sendto_fn` is the host's
transmit callback; `alloc_ok` models `lodp_buf_alloc` succeeding. -/
def lodp_send_data_pkt (cs : CryptoStatus)
    (pre_encrypt_fn : Option (Nat → Nat → Int)) (padRand : Nat → Nat)
    (iv : Bytes) (sendto_fn : Bytes → Int) (alloc_ok : Bool)
    (session : lodp_session) (payload : Bytes) : Int :=
  if PKT_DATA_LEN + payload.length > LODP_MSS then LODP_ERR_MSGSIZE
  else if ¬alloc_ok then LODP_ERR_NOBUFS
  else
    let buf : lodp_buf :=
      { plaintext := build_tag_region ++ [PKT_DATA, 0] ++
          htons16 (PKT_HDR_DATA_LEN + payload.length) ++ payload,
        ciphertext := [], len := PKT_DATA_LEN + payload.length }
    let r := encrypt_then_mac cs pre_encrypt_fn padRand iv session.tx_key buf
    if r.1 ≠ 0 then r.1 else sendto_fn r.2.ciphertext

/-- `lodp_send_init_pkt` from `lodp_pkt.c`: the INIT body carries the
session's own ephemeral intro keys, copied from `rx_key`. -/
def lodp_send_init_pkt (cs : CryptoStatus)
    (pre_encrypt_fn : Option (Nat → Nat → Int)) (padRand : Nat → Nat)
    (iv : Bytes) (sendto_fn : Bytes → Int) (alloc_ok : Bool)
    (session : lodp_session) : Int :=
  if ¬alloc_ok then LODP_ERR_NOBUFS
  else
    let buf : lodp_buf :=
      { plaintext := build_tag_region ++ [PKT_INIT, 0] ++
          htons16 PKT_HDR_INIT_LEN ++
          session.rx_key.mac_key.take LODP_MAC_KEY_LEN ++
          session.rx_key.bulk_key.take LODP_MAC_KEY_LEN,
        ciphertext := [], len := PKT_INIT_LEN }
    let r := encrypt_then_mac cs pre_encrypt_fn padRand iv session.tx_key buf
    if r.1 ≠ 0 then r.1 else sendto_fn r.2.ciphertext

/-- `lodp_send_handshake_pkt` from `lodp_pkt.c`: intro keys, the ephemeral
ECDH public key, and the stored cookie echo.  Faithful quirk: the source
assigns the sendto status into `ret` but its final statement is
`return (0)`, so the function reports success no matter what
`encrypt_then_mac` or the sendto callback returned. -/
def lodp_send_handshake_pkt (cs : CryptoStatus)
    (pre_encrypt_fn : Option (Nat → Nat → Int)) (padRand : Nat → Nat)
    (iv : Bytes) (sendto_fn : Bytes → Int) (alloc_ok : Bool)
    (session : lodp_session) : Int :=
  if ¬alloc_ok then LODP_ERR_NOBUFS
  else
    let buf : lodp_buf :=
      { plaintext := build_tag_region ++ [PKT_HANDSHAKE, 0] ++
          htons16 (PKT_HDR_HANDSHAKE_LEN + session.cookie_len) ++
          session.rx_key.mac_key.take LODP_MAC_KEY_LEN ++
          session.rx_key.bulk_key.take LODP_MAC_KEY_LEN ++
          natBytes session.session_ecdh_pub LODP_ECDH_PUBLIC_KEY_LEN ++
          (session.cookie.getD []).take session.cookie_len,
        ciphertext := [], len := PKT_HANDSHAKE_LEN + session.cookie_len }
    let r := encrypt_then_mac cs pre_encrypt_fn padRand iv session.tx_key buf
    let _ret := if r.1 ≠ 0 then r.1 else sendto_fn r.2.ciphertext
    0

/-- `lodp_send_heartbeat_pkt` from `lodp_pkt.c`. -/
def lodp_send_heartbeat_pkt (cs : CryptoStatus)
    (pre_encrypt_fn : Option (Nat → Nat → Int)) (padRand : Nat → Nat)
    (iv : Bytes) (sendto_fn : Bytes → Int) (alloc_ok : Bool)
    (session : lodp_session) (payload : Bytes) : Int :=
  if PKT_HEARTBEAT_LEN + payload.length > LODP_MSS then LODP_ERR_MSGSIZE
  else if ¬alloc_ok then LODP_ERR_NOBUFS
  else
    let buf : lodp_buf :=
      { plaintext := build_tag_region ++ [PKT_HEARTBEAT, 0] ++
          htons16 (PKT_HDR_HEARTBEAT_LEN + payload.length) ++ payload,
        ciphertext := [], len := PKT_HEARTBEAT_LEN + payload.length }
    let r := encrypt_then_mac cs pre_encrypt_fn padRand iv session.tx_key buf
    if r.1 ≠ 0 then r.1 else sendto_fn r.2.ciphertext

/-! ## Claim C6 -/

/-- C6: in `mac_then_decrypt` the MAC is recomputed over the received
bytes and compared before any decryption occurs; for every input whose
recomputed digest differs from the received tag (the MAC primitive itself
having succeeded) the function returns `LODP_ERR_INVALID_MAC` and the
buffer — its plaintext view included — is returned unmodified. -/
theorem mac_then_decrypt_rejects_bad_mac (cs : CryptoStatus)
    (keys : lodp_symmetric_key) (buf : lodp_buf)
    (hret : cs.mac_ret keys.mac_key
      ((buf.ciphertext.take buf.len).drop LODP_MAC_DIGEST_LEN) = 0)
    (hne : lodp_mac keys.mac_key
        ((buf.ciphertext.take buf.len).drop LODP_MAC_DIGEST_LEN)
        LODP_MAC_DIGEST_LEN ≠
      (buf.ciphertext.take buf.len).take LODP_MAC_DIGEST_LEN) :
    mac_then_decrypt cs keys buf = (LODP_ERR_INVALID_MAC, buf) := by
  simp [mac_then_decrypt, hret, lodp_memcmp, hne]

/-- Concrete instance of `mac_then_decrypt_rejects_bad_mac`: an all-zero
tag over an all-zero datagram does not match the recomputed digest. -/
def c6_keys : lodp_symmetric_key :=
  ⟨List.replicate 32 1, List.replicate 32 2⟩

def c6_buf : lodp_buf :=
  { plaintext := List.replicate 52 0, ciphertext := List.replicate 52 0,
    len := 52 }

/-- C6 witness: the corrupted concrete packet is rejected with
`LODP_ERR_INVALID_MAC` and left untouched. -/
theorem mac_then_decrypt_rejects_bad_mac_witness :
    mac_then_decrypt honestCrypto c6_keys c6_buf =
      (LODP_ERR_INVALID_MAC, c6_buf) :=
  mac_then_decrypt_rejects_bad_mac honestCrypto c6_keys c6_buf rfl (by decide)

/-! ## Claim C7 -/

/-- C7: for every successfully decrypted incoming packet,
`lodp_on_incoming_pkt` reads the length field in host byte order
(`hdr_length_of` combines the two wire bytes big-endian) and returns
`LODP_ERR_BAD_PACKET` whenever the length is below 4, or above
`buf.len - PKT_TAG_LEN`, or the flags byte is nonzero — for every
session/key combination and every packet type byte. -/
theorem incoming_header_checks (session0 : Option lodp_session) (used : Bool)
    (buf : lodp_buf)
    (hbad : hdr_length_of buf < PKT_TLV_LEN ∨
      hdr_length_of buf > buf.len - PKT_TAG_LEN ∨ hdr_flags_of buf ≠ 0) :
    incoming_after_decrypt session0 used buf = .error LODP_ERR_BAD_PACKET := by
  unfold incoming_after_decrypt
  rcases hbad with h | h | h
  · simp [h]
  · by_cases h1 : hdr_length_of buf < PKT_TLV_LEN
    · simp [h1]
    · simp [h1, h]
  · by_cases h1 : hdr_length_of buf < PKT_TLV_LEN
    · simp [h1]
    · by_cases h2 : hdr_length_of buf > buf.len - PKT_TAG_LEN
      · simp [h1, h2]
      · simp [h1, h2, h]

/-- A decrypted packet with a nonzero flags byte (type `PKT_REKEY`,
length 4 — otherwise well-formed). -/
def c7_buf : lodp_buf :=
  { plaintext := List.replicate PKT_TAG_LEN 0 ++ [PKT_REKEY, 1, 0, 4],
    ciphertext := [], len := PKT_HDR_LEN }

/-- C7 witness: the concrete nonzero-flags packet is rejected. -/
theorem incoming_header_checks_witness :
    incoming_after_decrypt none false c7_buf = .error LODP_ERR_BAD_PACKET :=
  incoming_header_checks none false c7_buf (by decide)

/-! ## Claim C4 -/

/-- C4: key selection in `lodp_on_incoming_pkt`.  With a session, its
`rx_key` is tried first: on success the packet proceeds with
`used_session_keys`; a non-`INVALID_MAC` failure is returned without any
fallback; only an `INVALID_MAC` failure (or the absence of a session)
reaches the endpoint-intro-key attempt, which returns `NOT_RESPONDER`
when the endpoint has no intro keys and otherwise returns its own failure
as is. -/
theorem incoming_key_selection (cs : CryptoStatus) (ep : lodp_endpoint)
    (session : lodp_session) (buf : lodp_buf) :
    ((mac_then_decrypt cs session.rx_key buf).1 = 0 →
      lodp_on_incoming_pkt cs ep (some session) buf =
        incoming_after_decrypt (some session) true
          (mac_then_decrypt cs session.rx_key buf).2) ∧
    ((mac_then_decrypt cs session.rx_key buf).1 ≠ 0 →
      (mac_then_decrypt cs session.rx_key buf).1 ≠ LODP_ERR_INVALID_MAC →
      lodp_on_incoming_pkt cs ep (some session) buf =
        .error (mac_then_decrypt cs session.rx_key buf).1) ∧
    ((mac_then_decrypt cs session.rx_key buf).1 = LODP_ERR_INVALID_MAC →
      lodp_on_incoming_pkt cs ep (some session) buf =
        incoming_intro_phase cs ep (some session) buf) ∧
    (lodp_on_incoming_pkt cs ep none buf =
      incoming_intro_phase cs ep none buf) ∧
    (¬ep.has_intro_keys →
      incoming_intro_phase cs ep (some session) buf =
        .error LODP_ERR_NOT_RESPONDER) ∧
    (ep.has_intro_keys →
      (mac_then_decrypt cs ep.intro_sym_keys buf).1 ≠ 0 →
      incoming_intro_phase cs ep (some session) buf =
        .error (mac_then_decrypt cs ep.intro_sym_keys buf).1) := by
  refine ⟨?_, ?_, ?_, rfl, ?_, ?_⟩
  · intro h0
    simp [lodp_on_incoming_pkt, h0]
  · intro h0 h1
    simp [lodp_on_incoming_pkt, h0, h1]
  · intro h0
    simp [lodp_on_incoming_pkt, h0, LODP_ERR_INVALID_MAC]
  · intro h0
    simp [incoming_intro_phase, h0]
  · intro h0 h1
    simp [incoming_intro_phase, h0, h1]

/-- A status oracle whose MAC primitive fails with -77 exactly for the
session `rx_key` below. -/
def c4_cs : CryptoStatus :=
  { mac_ret := fun k _ => if k = List.replicate 32 9 then -77 else 0,
    encrypt_ret := fun _ _ => 0, decrypt_ret := fun _ _ => 0 }

def c4_session : lodp_session :=
  { is_initiator := true, state := STATE_ESTABLISHED, seen_peer_data := true,
    session_ecdh_pub := 0, session_ecdh_priv := 0, remote_public_key := 0,
    session_secret := [], session_secret_verifier := [],
    tx_key := ⟨[], []⟩, rx_key := ⟨List.replicate 32 9, List.replicate 32 10⟩,
    cookie := none, cookie_len := 0 }

def c4_ep : lodp_endpoint :=
  { has_intro_keys := true,
    intro_sym_keys := ⟨List.replicate 32 11, List.replicate 32 12⟩,
    intro_ecdh_pub := 0, intro_ecdh_priv := 0, cookie_key := [],
    prev_cookie_key := [], cookie_rotate_time := 0, cookie_expire_time := 0 }

def c4_buf : lodp_buf :=
  { plaintext := List.replicate 52 0, ciphertext := List.replicate 52 0,
    len := 52 }

/-- C4 witness: a session-key attempt failing with the non-MAC error -77
is final — the intro keys are present but not consulted. -/
theorem incoming_key_selection_witness :
    lodp_on_incoming_pkt c4_cs c4_ep (some c4_session) c4_buf =
      .error (mac_then_decrypt c4_cs c4_session.rx_key c4_buf).1 :=
  (incoming_key_selection c4_cs c4_ep c4_session c4_buf).2.1
    (by decide) (by decide)

/-! ## Claim C10 -/

/-- C10: every successful `generate_cookie` call wipes the first
`SIZEOF_COOKIE_PTR` (= `sizeof(lodp_cookie *)`, 8) bytes of the digest it
just produced — not `COOKIE_LEN` bytes — before returning, so every cookie
handed to `on_init_pkt`'s INIT_ACK and every reference cookie computed
during HANDSHAKE validation has its leading pointer-sized bytes zeroed;
and the result is independent of `prev_key`, so generation and validation
stay mutually consistent. -/
theorem generate_cookie_wipes_leading_bytes (prev_key : Nat)
    (ep ep2 : lodp_endpoint) (now : Nat) (fresh : Bytes) (pkt : lodp_pkt_raw)
    (addr : SockAddr) (d : Bytes)
    (h : generate_cookie prev_key ep now fresh pkt addr = .ok (ep2, d)) :
    d.take SIZEOF_COOKIE_PTR = List.replicate SIZEOF_COOKIE_PTR 0 ∧
    d.length = COOKIE_LEN ∧
    ∀ q : Nat, generate_cookie q ep now fresh pkt addr = .ok (ep2, d) := by
  have hd : ∃ key blob, d =
      lodp_memwipe (lodp_mac key blob COOKIE_LEN) SIZEOF_COOKIE_PTR := by
    simp only [generate_cookie] at h
    split at h
    · exact absurd h (by simp)
    · split at h
      · exact absurd h (by simp)
      · split at h
        · exact absurd h (by simp)
        · simp only [Except.ok.injEq, Prod.mk.injEq] at h
          exact ⟨_, _, h.2.symm⟩
  obtain ⟨key, blob, hdd⟩ := hd
  subst hdd
  refine ⟨?_, ?_, fun q => h⟩
  · simp [lodp_memwipe, SIZEOF_COOKIE_PTR, COOKIE_LEN, LODP_MAC_DIGEST_LEN,
      List.take_append]
  · simp [lodp_memwipe, SIZEOF_COOKIE_PTR, COOKIE_LEN, LODP_MAC_DIGEST_LEN]

def c10_ep : lodp_endpoint :=
  { has_intro_keys := true, intro_sym_keys := ⟨[], []⟩, intro_ecdh_pub := 0,
    intro_ecdh_priv := 0, cookie_key := List.replicate 32 21,
    prev_cookie_key := List.replicate 32 22, cookie_rotate_time := 100,
    cookie_expire_time := 115 }

def c10_pkt : lodp_pkt_raw :=
  { hdr := ⟨PKT_INIT, 0, PKT_HDR_INIT_LEN⟩, payload := List.replicate 64 3 }

def c10_addr : SockAddr := .v4 [10, 0, 0, 2] [0, 53]

/-- The digest `generate_cookie` produces for the concrete INIT above. -/
def c10_cookie : Bytes :=
  lodp_memwipe
    (lodp_mac (List.replicate 32 21)
      ([10, 0, 0, 2] ++ [0, 53] ++ List.replicate 64 3) COOKIE_LEN)
    SIZEOF_COOKIE_PTR

/-- C10 witness: the concrete INIT-driven cookie has its first 8 bytes
zero, is 32 bytes long, and is independent of the `prev_key` argument. -/
theorem generate_cookie_wipes_leading_bytes_witness :
    c10_cookie.take SIZEOF_COOKIE_PTR = List.replicate SIZEOF_COOKIE_PTR 0 ∧
    c10_cookie.length = COOKIE_LEN ∧
    ∀ q : Nat, generate_cookie q c10_ep 110 [] c10_pkt c10_addr =
      .ok (c10_ep, c10_cookie) :=
  generate_cookie_wipes_leading_bytes 0 c10_ep c10_ep 110 [] c10_pkt
    c10_addr c10_cookie (by rfl)

/-! ## Claim C1 -/

/-- The endpoint for the grace-window scenario: the cookie key has just
rotated (previous key retained, `now` within both the rotation interval
and the grace window). -/
def c1_ep : lodp_endpoint :=
  { has_intro_keys := true, intro_sym_keys := ⟨[], []⟩, intro_ecdh_pub := 0,
    intro_ecdh_priv := 0, cookie_key := List.replicate 32 42,
    prev_cookie_key := List.replicate 31 42 ++ [43], cookie_rotate_time := 100,
    cookie_expire_time := 115 }

def c1_now : Nat := 110

def c1_addr : SockAddr := .v4 [10, 0, 0, 1] [31, 144]

/-- The cookie blob for the HANDSHAKE below: peer IP, port, intro keys. -/
def c1_blob : Bytes :=
  [10, 0, 0, 1] ++ [31, 144] ++ List.replicate 32 1 ++ List.replicate 32 2

/-- The cookie that `generate_cookie` would have produced under the
*previous* cookie key (the digest keyed with `prev_cookie_key`, leading
pointer-sized bytes wiped) — per the spec this must verify during the
grace window. -/
def c1_prev_cookie : Bytes :=
  lodp_memwipe (lodp_mac (List.replicate 31 42 ++ [43]) c1_blob COOKIE_LEN)
    SIZEOF_COOKIE_PTR

/-- A well-formed HANDSHAKE echoing the previous-key cookie. -/
def c1_pkt : lodp_pkt_handshake :=
  { hdr := ⟨PKT_HANDSHAKE, 0, PKT_HDR_HANDSHAKE_LEN + COOKIE_LEN⟩,
    intro_mac_key := List.replicate 32 1,
    intro_bulk_key := List.replicate 32 2,
    public_key := 216, cookie := c1_prev_cookie }

/-- C1: counter-evidence.  `generate_cookie` never reads its `prev_key`
argument — the digest is keyed with the endpoint's current `cookie_key`
for every flag value — so a HANDSHAKE echoing the previous-key cookie is
rejected with `LODP_ERR_INVALID_COOKIE` even though `now` is within the
grace window (`now ≤ cookie_expire_time`), where the claim says the
previous-key recomputation must make it verify. -/
theorem c1_prev_key_cookie_rejected :
    (∀ q : Nat,
      generate_cookie q c1_ep c1_now [] (raw_of_handshake c1_pkt) c1_addr =
      generate_cookie 0 c1_ep c1_now [] (raw_of_handshake c1_pkt) c1_addr) ∧
    c1_now ≤ c1_ep.cookie_expire_time ∧
    c1_prev_cookie =
      lodp_memwipe (lodp_mac c1_ep.prev_cookie_key c1_blob COOKIE_LEN)
        SIZEOF_COOKIE_PTR ∧
    on_handshake_pkt c1_ep none c1_pkt c1_addr c1_now [] 3 =
      .error LODP_ERR_INVALID_COOKIE :=
  ⟨fun _ => rfl, by decide, rfl, by rfl⟩

/-! ## Claim C2 -/

def c2_ep : lodp_endpoint :=
  { has_intro_keys := true, intro_sym_keys := ⟨[], []⟩,
    intro_ecdh_pub := lodp_ecdh_pubkey 7, intro_ecdh_priv := 7,
    cookie_key := List.replicate 32 42,
    prev_cookie_key := List.replicate 32 41, cookie_rotate_time := 100,
    cookie_expire_time := 115 }

/-- The cookie the endpoint itself would generate right now (current key),
so the HANDSHAKE below passes cookie validation. -/
def c2_cookie : Bytes :=
  lodp_memwipe
    (lodp_mac (List.replicate 32 42)
      ([10, 0, 0, 1] ++ [31, 144] ++ List.replicate 32 1 ++
        List.replicate 32 2) COOKIE_LEN)
    SIZEOF_COOKIE_PTR

def c2_pkt : lodp_pkt_handshake :=
  { hdr := ⟨PKT_HANDSHAKE, 0, PKT_HDR_HANDSHAKE_LEN + COOKIE_LEN⟩,
    intro_mac_key := List.replicate 32 1,
    intro_bulk_key := List.replicate 32 2,
    public_key := 216, cookie := c2_cookie }

/-- A responder session that already answered this HANDSHAKE once (cached
ntor material present, no peer payload seen yet). -/
def c2_session : lodp_session :=
  { is_initiator := false, state := STATE_ESTABLISHED, seen_peer_data := false,
    session_ecdh_pub := 216, session_ecdh_priv := 3, remote_public_key := 0,
    session_secret := List.replicate 32 5,
    session_secret_verifier := List.replicate 32 6,
    tx_key := ⟨List.replicate 32 7, List.replicate 32 8⟩,
    rx_key := ⟨List.replicate 32 9, List.replicate 32 10⟩,
    cookie := none, cookie_len := 0 }

/-- C2: counter-evidence.  On the lost-ACK retransmission path
(`seen_peer_data == 0`) the handler does rebuild the HANDSHAKE_ACK from
the cached ephemeral public key and verifier without rerunning ntor, and
`seen_peer_data == 1` is rejected as a bad packet — but `should_callback`
is initialized to 1 and never cleared, so the `on_accept` callback fires
again on the retransmission, where the claim says it must fire exactly
once across the exchange. -/
theorem c2_retransmit_refires_on_accept :
    on_handshake_pkt c2_ep (some c2_session) c2_pkt c1_addr c1_now [] 3 =
      .ok { ack_public_key :=
              natBytes c2_session.session_ecdh_pub LODP_ECDH_PUBLIC_KEY_LEN,
            ack_digest := c2_session.session_secret_verifier,
            ran_ntor := false, on_accept_called := true,
            created_session := false, session := c2_session, ep := c2_ep } ∧
    on_handshake_pkt c2_ep (some { c2_session with seen_peer_data := true })
        c2_pkt c1_addr c1_now [] 3 =
      .error LODP_ERR_BAD_PACKET :=
  ⟨by rfl, by rfl⟩

/-! ## Claim C3 -/

/-- A responder session holding a 32-byte cookie buffer of 0xFF bytes,
about to process its first DATA packet. -/
def c3_session : lodp_session :=
  { is_initiator := false, state := STATE_ESTABLISHED, seen_peer_data := false,
    session_ecdh_pub := 9, session_ecdh_priv := 11, remote_public_key := 0,
    session_secret := List.replicate 32 5,
    session_secret_verifier := List.replicate 32 6,
    tx_key := ⟨[], []⟩, rx_key := ⟨[], []⟩,
    cookie := some (List.replicate 32 255), cookie_len := 32 }

/-- C3: counter-evidence.  When the responder's first DATA packet triggers
`scrub_handshake_material`, the cookie wipe is
`lodp_memwipe(session->cookie, sizeof(session->cookie_len))`: only the
first 8 bytes of the 32-byte (`cookie_len`) buffer are zero at the moment
it is freed — byte 8 is still 0xFF — while the ephemeral keypair, shared
secret and verifier are wiped in full.  The claim that the *entire*
cookie buffer (all `cookie_len` bytes) is zero fails. -/
theorem c3_cookie_wipe_is_pointer_sized :
    (on_data_pkt (fun _ => 0) c3_session PKT_TLV_LEN []).2.2 =
      some (List.replicate 8 0 ++ List.replicate 24 255) ∧
    (List.replicate 8 0 ++ List.replicate 24 255).getD 8 0 = 255 ∧
    c3_session.cookie_len = 32 ∧
    (on_data_pkt (fun _ => 0) c3_session PKT_TLV_LEN []).2.1.session_ecdh_pub = 0 ∧
    (on_data_pkt (fun _ => 0) c3_session PKT_TLV_LEN []).2.1.session_secret =
      List.replicate 32 0 ∧
    (on_data_pkt (fun _ => 0) c3_session PKT_TLV_LEN
        []).2.1.session_secret_verifier = List.replicate 32 0 :=
  ⟨by rfl, by rfl, rfl, by rfl, by rfl, by rfl⟩

/-! ## Claim C9 -/

/-- An initiator session in the HANDSHAKE state with everything
`lodp_send_handshake_pkt` reads. -/
def c9_session : lodp_session :=
  { is_initiator := true, state := STATE_HANDSHAKE, seen_peer_data := false,
    session_ecdh_pub := 216, session_ecdh_priv := 3, remote_public_key := 71,
    session_secret := [], session_secret_verifier := [],
    tx_key := ⟨List.replicate 32 1, List.replicate 32 2⟩,
    rx_key := ⟨List.replicate 32 3, List.replicate 32 4⟩,
    cookie := some (List.replicate 32 4), cookie_len := 32 }

/-- C9: counter-evidence.  With a sendto callback that reports the failure
status -7, `lodp_send_data_pkt`, `lodp_send_init_pkt` and
`lodp_send_heartbeat_pkt` all return -7 to the caller, but
`lodp_send_handshake_pkt` returns 0: its final statement is `return (0)`,
discarding the status it assigned from the callback.  The claim that
*every* egress builder returns the callback's status fails on the
HANDSHAKE builder. -/
theorem c9_handshake_builder_swallows_status :
    lodp_send_handshake_pkt honestCrypto none (fun _ => 0)
        (List.replicate 16 3) (fun _ => -7) true c9_session = 0 ∧
    lodp_send_data_pkt honestCrypto none (fun _ => 0) (List.replicate 16 3)
        (fun _ => -7) true c9_session [1, 2, 3] = -7 ∧
    lodp_send_init_pkt honestCrypto none (fun _ => 0) (List.replicate 16 3)
        (fun _ => -7) true c9_session = -7 ∧
    lodp_send_heartbeat_pkt honestCrypto none (fun _ => 0)
        (List.replicate 16 3) (fun _ => -7) true c9_session [1, 2, 3] = -7 :=
  ⟨by rfl, by rfl, by rfl, by rfl⟩

/-! ## Claim C5 -/

/-- `apply_padding` only ever appends bytes: the plaintext is extended, the
length grows by the same amount, and the ciphertext view is untouched. -/
theorem apply_padding_spec (f : Option (Nat → Nat → Int)) (padRand : Nat → Nat)
    (buf : lodp_buf) :
    ∃ pad : Bytes,
      (apply_padding f padRand buf).plaintext = buf.plaintext ++ pad ∧
      (apply_padding f padRand buf).len = buf.len + pad.length ∧
      (apply_padding f padRand buf).ciphertext = buf.ciphertext := by
  unfold apply_padding
  match f with
  | none => exact ⟨[], by simp, by simp, rfl⟩
  | some g =>
      by_cases h : 0 < g buf.len LODP_MSS
      · refine ⟨(List.range (if (g buf.len LODP_MSS).toNat + buf.len > LODP_MSS
            then LODP_MSS - buf.len else (g buf.len LODP_MSS).toNat)).map padRand,
          ?_, ?_, ?_⟩ <;> simp [h]
      · exact ⟨[], by simp [h], by simp [h], by simp [h]⟩

/-- Action of `mac_then_decrypt` (with succeeding primitives) on a
ciphertext of the exact shape `encrypt_then_mac` emits: the recomputed
digest matches, and the body decrypts into the plaintext view after the
tag region. -/
theorem mac_then_decrypt_of_shape (keys : lodp_symmetric_key) (buf : lodp_buf)
    (iv ctb : Bytes) (hiv : iv.length = LODP_BULK_IV_LEN)
    (hlen : buf.len = PKT_TAG_LEN + ctb.length)
    (hct : buf.ciphertext =
      lodp_mac keys.mac_key (iv ++ ctb) LODP_MAC_DIGEST_LEN ++ (iv ++ ctb)) :
    mac_then_decrypt honestCrypto keys buf =
      (0, { buf with plaintext := buf.plaintext.take PKT_TAG_LEN ++
              lodp_decrypt keys.bulk_key iv ctb }) := by
  have hmaclen : (lodp_mac keys.mac_key (iv ++ ctb) LODP_MAC_DIGEST_LEN).length
      = LODP_MAC_DIGEST_LEN := lodp_mac_length _ _ _
  have htake : buf.ciphertext.take buf.len = buf.ciphertext := by
    apply List.take_of_length_le
    rw [hct]
    simp only [List.length_append, hmaclen, hiv, hlen, PKT_TAG_LEN]
    omega
  have htag : buf.ciphertext.take LODP_MAC_DIGEST_LEN
      = lodp_mac keys.mac_key (iv ++ ctb) LODP_MAC_DIGEST_LEN := by
    rw [hct]; exact List.take_left' hmaclen
  have hrest : buf.ciphertext.drop LODP_MAC_DIGEST_LEN = iv ++ ctb := by
    rw [hct]; exact List.drop_left' hmaclen
  have hivtake : (iv ++ ctb).take LODP_BULK_IV_LEN = iv := List.take_left' hiv
  have hivdrop : (iv ++ ctb).drop LODP_BULK_IV_LEN = ctb := List.drop_left' hiv
  simp only [mac_then_decrypt, htake, htag, hrest, hivtake, hivdrop,
    honestCrypto]
  simp [lodp_memcmp]

/-- The AEAD core roundtrip: encrypting a well-formed buffer succeeds and
produces a ciphertext that `mac_then_decrypt` maps back to the very same
buffer. -/
theorem aead_core_roundtrip (iv : Bytes) (keys : lodp_symmetric_key)
    (buf : lodp_buf) (hwf : buf.plaintext.length = buf.len)
    (hlo : PKT_TAG_LEN ≤ buf.len) (hiv : iv.length = LODP_BULK_IV_LEN) :
    ∃ C : Bytes,
      encrypt_then_mac_core honestCrypto iv keys buf =
        (0, { buf with ciphertext := C }) ∧
      mac_then_decrypt honestCrypto keys { buf with ciphertext := C } =
        (0, { buf with ciphertext := C }) := by
  have hbody : (buf.plaintext.drop PKT_TAG_LEN).take (buf.len - PKT_TAG_LEN)
      = buf.plaintext.drop PKT_TAG_LEN :=
    List.take_of_length_le (by simp [hwf])
  refine ⟨lodp_mac keys.mac_key
      (iv ++ lodp_encrypt keys.bulk_key iv (buf.plaintext.drop PKT_TAG_LEN))
      LODP_MAC_DIGEST_LEN ++
    (iv ++ lodp_encrypt keys.bulk_key iv (buf.plaintext.drop PKT_TAG_LEN)),
    ?_, ?_⟩
  · simp [encrypt_then_mac_core, honestCrypto, hbody]
  · have hlen2 : buf.len = PKT_TAG_LEN +
        (lodp_encrypt keys.bulk_key iv (buf.plaintext.drop PKT_TAG_LEN)).length := by
      rw [lodp_encrypt_length, List.length_drop, hwf]
      omega
    generalize hC : (lodp_mac keys.mac_key
        (iv ++ lodp_encrypt keys.bulk_key iv (buf.plaintext.drop PKT_TAG_LEN))
        LODP_MAC_DIGEST_LEN ++
      (iv ++ lodp_encrypt keys.bulk_key iv (buf.plaintext.drop PKT_TAG_LEN)) :
        Bytes) = C
    have h := mac_then_decrypt_of_shape keys { buf with ciphertext := C } iv
      (lodp_encrypt keys.bulk_key iv (buf.plaintext.drop PKT_TAG_LEN))
      hiv hlen2 hC.symm
    rw [h, lodp_decrypt_encrypt]
    simp

/-- Dropping a prefix and truncating to the pre-padding extent undoes an
append: the padding bytes beyond the original body fall away. -/
theorem drop_take_append_cancel (l pad : Bytes) (n : Nat)
    (hn : n ≤ l.length) :
    ((l ++ pad).drop n).take (l.length - n) = l.drop n := by
  rw [List.drop_append_eq_append_drop, Nat.sub_eq_zero_of_le hn,
    List.drop_zero, List.take_append_eq_append_take,
    List.take_of_length_le (by simp)]
  simp

/-- C5: for every plaintext packet buffer whose body fits the MSS
(`buf.len ≤ LODP_MSS`, so the body after the tag region is at most
`LODP_MSS - PKT_TAG_LEN` bytes), applying `mac_then_decrypt` to the output
of `encrypt_then_mac` under the same symmetric keys succeeds and
reproduces exactly the body bytes that existed before any optional padding
was appended. -/
theorem aead_roundtrip (pre_encrypt_fn : Option (Nat → Nat → Int))
    (padRand : Nat → Nat) (iv : Bytes) (keys : lodp_symmetric_key)
    (buf : lodp_buf) (hwf : buf.plaintext.length = buf.len)
    (hlo : PKT_TAG_LEN ≤ buf.len) (hhi : buf.len ≤ LODP_MSS)
    (hiv : iv.length = LODP_BULK_IV_LEN) :
    (encrypt_then_mac honestCrypto pre_encrypt_fn padRand iv keys buf).1 = 0 ∧
    (mac_then_decrypt honestCrypto keys
        (encrypt_then_mac honestCrypto pre_encrypt_fn padRand iv keys
          buf).2).1 = 0 ∧
    ((mac_then_decrypt honestCrypto keys
          (encrypt_then_mac honestCrypto pre_encrypt_fn padRand iv keys
            buf).2).2.plaintext.drop PKT_TAG_LEN).take
        (buf.len - PKT_TAG_LEN) =
      buf.plaintext.drop PKT_TAG_LEN := by
  obtain ⟨pad, hpt, hlen, -⟩ := apply_padding_spec pre_encrypt_fn padRand buf
  have hunf : encrypt_then_mac honestCrypto pre_encrypt_fn padRand iv keys buf
      = encrypt_then_mac_core honestCrypto iv keys
          (apply_padding pre_encrypt_fn padRand buf) := rfl
  set pbuf := apply_padding pre_encrypt_fn padRand buf with hpb
  have hwf2 : pbuf.plaintext.length = pbuf.len := by
    rw [hpt, hlen, List.length_append, hwf]
  have hlo2 : PKT_TAG_LEN ≤ pbuf.len := by
    rw [hlen]; omega
  obtain ⟨C, he, hd⟩ := aead_core_roundtrip iv keys pbuf hwf2 hlo2 hiv
  simp only [hunf, he, hd]
  refine ⟨trivial, trivial, ?_⟩
  rw [hpt, ← hwf]
  exact drop_take_append_cancel _ _ _ (by rw [hwf]; exact hlo)

def c5_keys : lodp_symmetric_key :=
  ⟨List.replicate 32 5, List.replicate 32 6⟩

/-- A well-formed 52-byte plaintext DATA packet. -/
def c5_buf : lodp_buf :=
  { plaintext := List.replicate PKT_TAG_LEN 0 ++ [PKT_DATA, 0, 0, 4],
    ciphertext := [], len := 52 }

/-- C5 witness: the concrete packet, padded by two callback-requested
random bytes, encrypts, authenticates and decrypts back to its original
body. -/
theorem aead_roundtrip_witness :
    (encrypt_then_mac honestCrypto (some (fun _ _ => 2)) (fun _ => 7)
      (List.replicate 16 9) c5_keys c5_buf).1 = 0 ∧
    (mac_then_decrypt honestCrypto c5_keys
        (encrypt_then_mac honestCrypto (some (fun _ _ => 2)) (fun _ => 7)
          (List.replicate 16 9) c5_keys c5_buf).2).1 = 0 ∧
    ((mac_then_decrypt honestCrypto c5_keys
          (encrypt_then_mac honestCrypto (some (fun _ _ => 2)) (fun _ => 7)
            (List.replicate 16 9) c5_keys c5_buf).2).2.plaintext.drop
        PKT_TAG_LEN).take (c5_buf.len - PKT_TAG_LEN) =
      c5_buf.plaintext.drop PKT_TAG_LEN :=
  aead_roundtrip (some (fun _ _ => 2)) (fun _ => 7) (List.replicate 16 9)
    c5_keys c5_buf (by decide) (by decide) (by decide) (by decide)

/-! ## Claim C8 -/

/-- The shared-secret law of the modelled ECDH group:
`EXP(EXP(g,b),a) = EXP(EXP(g,a),b)`. -/
theorem lodp_ecdh_comm (a b : Nat) :
    lodp_ecdh a (lodp_ecdh_pubkey b) = lodp_ecdh b (lodp_ecdh_pubkey a) := by
  unfold lodp_ecdh lodp_ecdh_pubkey
  rw [← Nat.pow_mod, ← Nat.pow_mod, ← Nat.pow_mul, ← Nat.pow_mul, Nat.mul_comm]

/-- C8: `ntor_handshake` installs `(tx = key_a, rx = key_b)` on an
initiator session and `(rx = key_a, tx = key_b)` on a responder session,
where `(key_a, key_b) = lodp_derive_sessionkeys(shared_secret)`; and after
the two sides of an exchange each run `ntor_handshake` on the other's
ephemeral public key, they derive the same shared secret, so
`initiator.tx_key = responder.rx_key` and
`initiator.rx_key = responder.tx_key`. -/
theorem ntor_session_key_agreement (ep : lodp_endpoint)
    (ini res : lodp_session) (x y b : Nat)
    (hini : ini.is_initiator = true) (hres : res.is_initiator = false)
    (hX : ini.session_ecdh_pub = lodp_ecdh_pubkey x)
    (hx : ini.session_ecdh_priv = x)
    (hY : res.session_ecdh_pub = lodp_ecdh_pubkey y)
    (hy : res.session_ecdh_priv = y)
    (hB : ini.remote_public_key = lodp_ecdh_pubkey b)
    (hBe : ep.intro_ecdh_pub = lodp_ecdh_pubkey b)
    (hbe : ep.intro_ecdh_priv = b)
    (hvx : lodp_ecdh_validate_pubkey (lodp_ecdh_pubkey x) = 0)
    (hvy : lodp_ecdh_validate_pubkey (lodp_ecdh_pubkey y) = 0)
    (hvb : lodp_ecdh_validate_pubkey (lodp_ecdh_pubkey b) = 0) :
    ∃ ini2 res2,
      ntor_handshake ep ini res.session_ecdh_pub = .ok ini2 ∧
      ntor_handshake ep res ini.session_ecdh_pub = .ok res2 ∧
      ini2.session_secret = res2.session_secret ∧
      ini2.tx_key = (lodp_derive_sessionkeys ini2.session_secret).1 ∧
      ini2.rx_key = (lodp_derive_sessionkeys ini2.session_secret).2 ∧
      res2.rx_key = (lodp_derive_sessionkeys res2.session_secret).1 ∧
      res2.tx_key = (lodp_derive_sessionkeys res2.session_secret).2 ∧
      ini2.tx_key = res2.rx_key ∧ ini2.rx_key = res2.tx_key := by
  have hei : ntor_handshake ep ini res.session_ecdh_pub =
      .ok (ntor_finish ini true (lodp_ecdh_pubkey b) (lodp_ecdh_pubkey x)
        (lodp_ecdh_pubkey y) (lodp_ecdh x (lodp_ecdh_pubkey y))
        (lodp_ecdh x (lodp_ecdh_pubkey b))) := by
    unfold ntor_handshake
    rw [hini, hX, hx, hY, hB]
    simp [hvy, hvb]
  have her : ntor_handshake ep res ini.session_ecdh_pub =
      .ok (ntor_finish res false (lodp_ecdh_pubkey b) (lodp_ecdh_pubkey x)
        (lodp_ecdh_pubkey y) (lodp_ecdh y (lodp_ecdh_pubkey x))
        (lodp_ecdh b (lodp_ecdh_pubkey x))) := by
    unfold ntor_handshake
    rw [hres, hX, hY, hy, hBe, hbe]
    simp [hvx]
  rw [← lodp_ecdh_comm x y, ← lodp_ecdh_comm x b] at her
  refine ⟨_, _, hei, her, ?_, ?_, ?_, ?_, ?_, ?_, ?_⟩ <;> simp [ntor_finish]

def c8_ep : lodp_endpoint :=
  { has_intro_keys := true, intro_sym_keys := ⟨[], []⟩,
    intro_ecdh_pub := lodp_ecdh_pubkey 7, intro_ecdh_priv := 7,
    cookie_key := [], prev_cookie_key := [], cookie_rotate_time := 0,
    cookie_expire_time := 0 }

def c8_ini : lodp_session :=
  { is_initiator := true, state := STATE_HANDSHAKE, seen_peer_data := false,
    session_ecdh_pub := lodp_ecdh_pubkey 3, session_ecdh_priv := 3,
    remote_public_key := lodp_ecdh_pubkey 7, session_secret := [],
    session_secret_verifier := [], tx_key := ⟨[], []⟩, rx_key := ⟨[], []⟩,
    cookie := some (List.replicate 32 4), cookie_len := 32 }

def c8_res : lodp_session :=
  { is_initiator := false, state := STATE_ESTABLISHED, seen_peer_data := false,
    session_ecdh_pub := lodp_ecdh_pubkey 5, session_ecdh_priv := 5,
    remote_public_key := 0, session_secret := [],
    session_secret_verifier := [], tx_key := ⟨[], []⟩, rx_key := ⟨[], []⟩,
    cookie := none, cookie_len := 0 }

/-- C8 witness: the concrete exchange (x = 3, y = 5, b = 7) agrees on the
session keys with the crossed tx/rx assignment. -/
theorem ntor_session_key_agreement_witness :
    ∃ ini2 res2,
      ntor_handshake c8_ep c8_ini c8_res.session_ecdh_pub = .ok ini2 ∧
      ntor_handshake c8_ep c8_res c8_ini.session_ecdh_pub = .ok res2 ∧
      ini2.session_secret = res2.session_secret ∧
      ini2.tx_key = (lodp_derive_sessionkeys ini2.session_secret).1 ∧
      ini2.rx_key = (lodp_derive_sessionkeys ini2.session_secret).2 ∧
      res2.rx_key = (lodp_derive_sessionkeys res2.session_secret).1 ∧
      res2.tx_key = (lodp_derive_sessionkeys res2.session_secret).2 ∧
      ini2.tx_key = res2.rx_key ∧ ini2.rx_key = res2.tx_key :=
  ntor_session_key_agreement c8_ep c8_ini c8_res 3 5 7 rfl rfl rfl rfl rfl
    rfl rfl rfl rfl (by decide) (by decide) (by decide)
